import Mathlib

/-
  Shallow embedding of the feedback ingestion and notification dispatch
  pipeline of the repository (netlify/functions/feedback/index.ts and
  netlify/functions/send-notification/index.ts).

  Modelling conventions:
  * The store (supabase) and the network are external collaborators; their
    responses are inputs to the model (`Env` / `NEnv` fields).
  * JavaScript truthiness on the string/option fields is modelled explicitly
    (`undefined`/missing = `none`; the empty string is falsy).
  * `JSON.parse` of the request body is external; a request carries
    `Option Body` where `none` models a body that fails to parse (the parse
    throws, landing in the handler's catch-all).
  * Each handler returns its HTTP response together with an ordered trace of
    the observable effects it performed (store lookups, inserts, outbound
    requests, and finally returning the response to the caller).  An `await`
    in the source is a sequential step in the model, so trace order mirrors
    the source's completion order.
  * Exceptions inside the handler's `try` block are modelled with
    `Except Unit`; the surrounding `catch` converts an exception into the
    500 response, exactly as the source's catch-all does.
-/

namespace Userbird

/-- An HTTP response: status code and (optional) body text.  CORS headers are
attached unconditionally by `getCorsHeaders` in the source and no claim
mentions them, so they are not modelled. -/
structure Resp where
  statusCode : Nat
  body : Option String
deriving DecidableEq

/-- Body `JSON.stringify(\x7b success: true \x7d)`. -/
def successBody : String := "\x7b\"success\":true\x7d"

/-- Body of the 400 response of the feedback handler. -/
def invalidBody : String := "\x7b\"error\":\"Invalid request data\"\x7d"

/-- Body of the 403 response of the feedback handler. -/
def forbiddenBody : String := "\x7b\"error\":\"Origin not allowed\"\x7d"

/-- Body of the 405 response of the feedback handler. -/
def methodBody : String := "\x7b\"error\":\"Method not allowed\"\x7d"

/-- Body of the 500 response of the feedback handler. -/
def internalBody : String := "\x7b\"error\":\"Internal server error\"\x7d"

/-- JavaScript `String.prototype.trim`: strip leading and trailing
whitespace.  Implemented structurally over the character list so it reduces
definitionally. -/
def jsTrim (s : String) : String :=
  String.mk (((s.data.dropWhile Char.isWhitespace).reverse.dropWhile
    Char.isWhitespace).reverse)

/-- JavaScript truthiness of an optional string value: `undefined` and the
empty string are falsy. -/
def truthyOptStr : Option String → Bool
  | none => false
  | some s => !(s == "")

/-- JavaScript `v || d` for an optional string `v` and string default `d`:
missing or empty string falls back to the default. -/
def jsOrStr (o : Option String) (d : String) : String :=
  match o with
  | none => d
  | some s => if s == "" then d else s

/-- JavaScript `v || null` for an optional string: missing or empty string
becomes null. -/
def jsNullableStr (o : Option String) : Option String :=
  match o with
  | none => none
  | some s => if s == "" then none else some s

/-- JavaScript `v || null` for an optional number: missing or `0` becomes
null. -/
def jsNullableNat (o : Option Nat) : Option Nat :=
  match o with
  | none => none
  | some n => if n == 0 then none else some n

/-- Modelled from the spec: `isValidOrigin` is imported from
`netlify/functions/feedback/validation.ts`, a file of this repository that is
not under the provided sources.  Spec 4.1 (OriginValidator): after
normalisation, returns true only if the declared request origin is equivalent
to the form's registered URL, false otherwise; never throws.  Normalisation
is an external collaborator detail, so equivalence is modelled as equality of
the two strings. -/
def isValidOrigin (origin url : String) : Bool :=
  origin == url

namespace Feedback

/-- The fields destructured from the parsed JSON body of an ingestion request
(source lines 56-67).  A missing field is `none`. -/
structure Body where
  formId : Option String
  message : Option String
  image_url : Option String
  image_name : Option String
  image_size : Option Nat
  operating_system : Option String
  screen_category : Option String
  user_id : Option String
  user_email : Option String
  user_name : Option String
deriving DecidableEq

/-- The record handed to `supabase.from('feedback').insert` (source lines
95-106).  `created_at` is assigned by the store, not by the handler. -/
structure Row where
  form_id : String
  message : String
  operating_system : String
  image_url : Option String
  image_name : Option String
  image_size : Option Nat
  screen_category : String
  user_id : Option String
  user_email : Option String
  user_name : Option String
deriving DecidableEq

/-- A row as returned by the store from the insert; the handler only reads
its `created_at` (source line 136). -/
structure InsertedRow where
  created_at : String
deriving DecidableEq

/-- The `notificationData` payload posted to the notification endpoint
(source lines 128-137): the raw destructured body fields (not the defaulted
values inserted into the store) plus the store-assigned `created_at`. -/
structure NotificationData where
  formId : Option String
  message : Option String
  userName : Option String
  userEmail : Option String
  operating_system : Option String
  screen_category : Option String
  image_url : Option String
  created_at : String
deriving DecidableEq

/-- Observable effects of one run of the feedback handler, in the order the
source performs (and completes) them. -/
inductive FEvent where
  /-- The `forms` lookup done inside `validateFormId` (source lines 23-27). -/
  | formLookup (formId : String)
  /-- The `feedback` insert (source lines 93-106). -/
  | insert (row : Row)
  /-- The `fetch` to the notification endpoint is issued (source line 141). -/
  | dispatchRequest (payload : NotificationData)
  /-- The awaited notification fetch/then/catch chain has settled (the
  `await` on source line 141 completes); `ok` records whether the chain
  succeeded before the `.catch`. -/
  | dispatchSettled (ok : Bool)
  /-- The handler returns this response to the caller. -/
  | respond (r : Resp)
deriving DecidableEq

/-- The environment of one run: the store's and network's responses.
`formUrl` is the `forms` table (id to registered url); `insertError` and
`insertData` are the `error`/`data` fields the store returns from the insert
(source line 93); `dispatchOk` is whether the notification fetch chain
succeeds (either way its `.catch` swallows any failure). -/
structure Env where
  formUrl : String → Option String
  insertError : Bool
  insertData : Option (List InsertedRow)
  dispatchOk : Bool

/-- An ingestion request: method, the coalesced
`event.headers.origin || event.headers.Origin` value, and the parse result of
the JSON body (`none` = `JSON.parse` throws). -/
structure FRequest where
  httpMethod : String
  origin : Option String
  body : Option Body

def respPreflight : Resp := ⟨204, none⟩
def respMethod : Resp := ⟨405, some methodBody⟩
def respInvalid : Resp := ⟨400, some invalidBody⟩
def respForbidden : Resp := ⟨403, some forbiddenBody⟩
def respInternal : Resp := ⟨500, some internalBody⟩
def respSuccess : Resp := ⟨200, some successBody⟩

/-- `validateFormId` (source lines 21-34): look up the form; if absent return
false, else apply `isValidOrigin` to the declared origin and the registered
url.  Any store failure is caught and resolves to false; the lookup itself is
recorded in the trace. -/
def validateFormId (env : Env) (formId origin : String) : Bool × List FEvent :=
  match env.formUrl formId with
  | none => (false, [FEvent.formLookup formId])
  | some url => (isValidOrigin origin url, [FEvent.formLookup formId])

/-- The inserted record (source lines 95-106): raw `formId`/`message`,
`"Unknown"` defaults for `operating_system`/`screen_category`, null defaults
for the other optionals (JavaScript `||` semantics). -/
def mkRow (fid : String) (b : Body) : Row where
  form_id := fid
  message := b.message.getD ""
  operating_system := jsOrStr b.operating_system "Unknown"
  image_url := jsNullableStr b.image_url
  image_name := jsNullableStr b.image_name
  image_size := jsNullableNat b.image_size
  screen_category := jsOrStr b.screen_category "Unknown"
  user_id := jsNullableStr b.user_id
  user_email := jsNullableStr b.user_email
  user_name := jsNullableStr b.user_name

/-- The `notificationData` payload (source lines 128-137). -/
def mkPayload (b : Body) (createdAt : String) : NotificationData where
  formId := b.formId
  message := b.message
  userName := b.user_name
  userEmail := b.user_email
  operating_system := b.operating_system
  screen_category := b.screen_category
  image_url := b.image_url
  created_at := createdAt

/-- Source lines 93-177, from the insert on: insert the record; a store
error is thrown (source line 108).  Then the 200 response value is built
(lines 111-115) and, when the insert's `data` is truthy, the notification is
dispatched: `feedbackData[0].created_at` throws a TypeError when `data` is
the (truthy) empty array, otherwise the fetch chain is awaited to settlement
(line 141) before the response is returned. -/
def insertAndNotify (env : Env) (b : Body) (fid : String) (tr : List FEvent) :
    Except Unit Resp × List FEvent :=
  let tr := tr ++ [FEvent.insert (mkRow fid b)]
  if env.insertError then
    (Except.error (), tr)
  else
    match env.insertData with
    | none => (Except.ok respSuccess, tr)
    | some [] => (Except.error (), tr)
    | some (r :: _) =>
      (Except.ok respSuccess,
        tr ++ [FEvent.dispatchRequest (mkPayload b r.created_at),
               FEvent.dispatchSettled env.dispatchOk])

/-- The body of the handler's `try` block (source lines 45-177): method
check, body parse (a parse failure throws), required-field validation
(source line 69: `!formId || !message?.trim()`), origin validation only when
an origin is declared (source line 78), then insert and notification. -/
def handlerTry (env : Env) (req : FRequest) : Except Unit Resp × List FEvent :=
  if req.httpMethod ≠ "POST" then
    (Except.ok respMethod, [])
  else
    match req.body with
    | none => (Except.error (), [])
    | some b =>
      if !(truthyOptStr b.formId && truthyOptStr (b.message.map jsTrim)) then
        (Except.ok respInvalid, [])
      else
        let fid := b.formId.getD ""
        if truthyOptStr req.origin then
          match validateFormId env fid (req.origin.getD "") with
          | (true, tr) => insertAndNotify env b fid tr
          | (false, tr) => (Except.ok respForbidden, tr)
        else
          insertAndNotify env b fid []

/-- The feedback handler (source lines 36-186): OPTIONS preflight is answered
before the `try` block; any exception inside the `try` block is caught and
answered with the 500 response (source lines 178-185).  The `respond` event
is the last effect: the source returns its response only after every awaited
step, including the awaited notification fetch chain, has completed. -/
def handler (env : Env) (req : FRequest) : Resp × List FEvent :=
  if req.httpMethod = "OPTIONS" then
    (respPreflight, [FEvent.respond respPreflight])
  else
    match handlerTry env req with
    | (Except.ok r, tr) => (r, tr ++ [FEvent.respond r])
    | (Except.error _, tr) => (respInternal, tr ++ [FEvent.respond respInternal])

/-- The feedback rows inserted during a run, in order. -/
def insertedRows (tr : List FEvent) : List Row :=
  tr.filterMap fun e =>
    match e with
    | FEvent.insert r => some r
    | _ => none

/-- Whether an event is a store access (form lookup or insert). -/
def isStoreEvent : FEvent → Bool
  | FEvent.formLookup _ => true
  | FEvent.insert _ => true
  | _ => false

/-- Whether an event is the outbound notification request. -/
def isDispatchRequest : FEvent → Bool
  | FEvent.dispatchRequest _ => true
  | _ => false

/-- Whether an event is the form lookup of origin validation. -/
def isFormLookup : FEvent → Bool
  | FEvent.formLookup _ => true
  | _ => false

end Feedback

namespace SendNotification

/-- The fields destructured from the notification endpoint's JSON body
(source line 23). -/
structure NPayload where
  formId : Option String
  message : Option String
  userName : Option String
  userEmail : Option String
deriving DecidableEq

/-- Observable effects of one run of the notification handler. -/
inductive NEvent where
  /-- The `forms` lookup (source lines 33-37). -/
  | formLookup (formId : Option String)
  /-- The `notification_settings` query for enabled rows (source lines
  48-52). -/
  | settingsLookup
  /-- An email-send request to this recipient is issued (the `fetch` inside
  `settings.map`, source lines 66-87; the map invokes `fetch` eagerly for
  every recipient, so every send is initiated before `Promise.all` is
  awaited). -/
  | emailSend (email : String)
deriving DecidableEq

/-- Environment of one dispatch run: the `forms` table, the `data` returned
by the enabled-settings query (`none` models a null result), and whether the
email-send fetch for a given recipient address fulfils (`false` = the send
fails, i.e. its promise rejects). -/
structure NEnv where
  formUrl : String → Option String
  settingsData : Option (List String)
  sendOk : String → Bool

/-- A notification request: method and body parse result (`none` =
`JSON.parse` throws). -/
structure NRequest where
  httpMethod : String
  body : Option NPayload

def respNMethod : Resp := ⟨405, some "Method Not Allowed"⟩
def respFormNotFound : Resp := ⟨404, some "\x7b\"error\":\"Form not found\"\x7d"⟩
def respNoSettings : Resp := ⟨200, some "\x7b\"message\":\"No notification settings found\"\x7d"⟩
def respNSuccess : Resp := ⟨200, some successBody⟩
def respNFail : Resp := ⟨500, some "\x7b\"error\":\"Failed to send notification\"\x7d"⟩

/-- The `forms` lookup keyed by the possibly-missing `formId` (source lines
33-37): a missing id matches no row. -/
def lookupForm (f : String → Option String) : Option String → Option String
  | none => none
  | some i => f i

/-- The body of the notification handler's `try` block (source lines 21-95):
form lookup (404 when absent), enabled-settings query (`!settings?.length`
answers 200 with the no-settings message for a null or empty result),
otherwise one email-send per recipient is initiated by the eager
`settings.map` and `Promise.all` is awaited: it fulfils only when every send
fulfils, and its rejection propagates as a thrown error. -/
def sendTry (env : NEnv) (p : NPayload) : Except Unit Resp × List NEvent :=
  match lookupForm env.formUrl p.formId with
  | none => (Except.ok respFormNotFound, [NEvent.formLookup p.formId])
  | some _ =>
    let tr := [NEvent.formLookup p.formId, NEvent.settingsLookup]
    match env.settingsData with
    | none => (Except.ok respNoSettings, tr)
    | some [] => (Except.ok respNoSettings, tr)
    | some emails =>
      let tr := tr ++ emails.map NEvent.emailSend
      if emails.all env.sendOk then
        (Except.ok respNSuccess, tr)
      else
        (Except.error (), tr)

/-- The notification handler (source lines 15-106): 405 before the `try`
block; a body-parse failure or a `Promise.all` rejection is caught by the
catch-all and answered with the 500 response (source lines 96-105) --
nothing is re-thrown past the handler. -/
def sendHandler (env : NEnv) (req : NRequest) : Resp × List NEvent :=
  if req.httpMethod ≠ "POST" then
    (respNMethod, [])
  else
    match req.body with
    | none => (respNFail, [])
    | some p =>
      match sendTry env p with
      | (Except.ok r, tr) => (r, tr)
      | (Except.error _, tr) => (respNFail, tr)

/-- The recipients to whom an email send was issued during a run. -/
def sentEmails (tr : List NEvent) : List String :=
  tr.filterMap fun e =>
    match e with
    | NEvent.emailSend m => some m
    | _ => none

end SendNotification

end Userbird

open Userbird Userbird.Feedback Userbird.SendNotification

/-- C6: for every POST submission with `formId` absent or `message` absent or
blank after trimming, ingestion returns 400 with body
`\x7b"error":"Invalid request data"\x7d` and no store access (neither form
lookup nor insert) occurs. -/
theorem claim_C6_bad_request (env : Feedback.Env) (req : Feedback.FRequest)
    (b : Feedback.Body)
    (hm : req.httpMethod = "POST") (hb : req.body = some b)
    (hbad : b.formId = none ∨ b.message = none ∨
      ∃ s, b.message = some s ∧ jsTrim s = "") :
    (Feedback.handler env req).1 = Feedback.respInvalid ∧
      ((Feedback.handler env req).2.filter Feedback.isStoreEvent) = [] := by
  have hguard :
      (!(truthyOptStr b.formId && truthyOptStr (b.message.map jsTrim))) = true := by
    rcases hbad with h | h | ⟨s, hs, hst⟩
    · simp [h, truthyOptStr]
    · simp [h, truthyOptStr]
    · simp [hs, hst, truthyOptStr]
  simp [Feedback.handler, Feedback.handlerTry, hm, hb, hguard,
    Feedback.isStoreEvent]

/-- C10: for every POST whose body is not parseable as JSON, the parse throw
lands in the catch-all: the handler returns 500 with body
`\x7b"error":"Internal server error"\x7d` (not 400) and no feedback record is
inserted. -/
theorem claim_C10_unparseable_body (env : Feedback.Env) (req : Feedback.FRequest)
    (hm : req.httpMethod = "POST") (hb : req.body = none) :
    (Feedback.handler env req).1 = Feedback.respInternal ∧
      Feedback.insertedRows (Feedback.handler env req).2 = [] := by
  simp [Feedback.handler, Feedback.handlerTry, hm, hb, Feedback.insertedRows]

/-- C7: for every POST submission that declares no (truthy) origin, origin
validation is skipped entirely -- the trace contains no form lookup -- and
persistence proceeds when `formId` and `message` pass validation: exactly the
record built from the body is inserted. -/
theorem claim_C7_no_origin_trusted_path (env : Feedback.Env)
    (req : Feedback.FRequest) (b : Feedback.Body) (fid : String)
    (hm : req.httpMethod = "POST") (hb : req.body = some b)
    (ho : truthyOptStr req.origin = false)
    (hfid : b.formId = some fid)
    (hft : truthyOptStr b.formId = true)
    (hmt : truthyOptStr (b.message.map jsTrim) = true) :
    ((Feedback.handler env req).2.filter Feedback.isFormLookup) = [] ∧
      Feedback.insertedRows (Feedback.handler env req).2 =
        [Feedback.mkRow fid b] := by
  simp only [hfid] at hft
  rcases hie : env.insertError with _ | _ <;>
    rcases hid : env.insertData with _ | (_ | ⟨r, rs⟩) <;>
      simp [Feedback.handler, Feedback.handlerTry, Feedback.insertAndNotify,
        hm, hb, ho, hfid, hft, hmt, hie, hid,
        Feedback.insertedRows, Feedback.isFormLookup]

/-- C4: for every POST submission declaring a (truthy) origin whose other
fields pass validation, if no form exists with the given `formId`, or the
declared origin differs from the form's registered URL, ingestion returns 403
with body `\x7b"error":"Origin not allowed"\x7d` and no feedback record is
inserted. -/
theorem claim_C4_origin_rejected (env : Feedback.Env) (req : Feedback.FRequest)
    (b : Feedback.Body) (fid orig : String)
    (hm : req.httpMethod = "POST") (hb : req.body = some b)
    (hfid : b.formId = some fid)
    (hft : truthyOptStr b.formId = true)
    (hmt : truthyOptStr (b.message.map jsTrim) = true)
    (ho : req.origin = some orig)
    (hot : truthyOptStr req.origin = true)
    (hrej : env.formUrl fid = none ∨
      ∃ url, env.formUrl fid = some url ∧ orig ≠ url) :
    (Feedback.handler env req).1 = Feedback.respForbidden ∧
      Feedback.insertedRows (Feedback.handler env req).2 = [] := by
  simp only [hfid] at hft
  simp only [ho] at hot
  have hval : Feedback.validateFormId env fid orig =
      (false, [FEvent.formLookup fid]) := by
    rcases hrej with h | ⟨url, hu, hne⟩
    · simp [Feedback.validateFormId, h]
    · simp [Feedback.validateFormId, hu, isValidOrigin, hne]
  simp [Feedback.handler, Feedback.handlerTry, hm, hb, hfid, hft, hmt, ho,
    hot, hval, Feedback.insertedRows]

/-- C5: for every valid POST submission whose declared origin equals the
form's registered URL, when the store's insert succeeds (and, as the store
does for a plain insert, does not return a truthy-but-empty data array),
ingestion returns 200 with body `\x7b"success":true\x7d` and exactly one
feedback record is created: the record built from the body, whose `form_id`
is the submitted one, whose `operating_system`/`screen_category` are
`"Unknown"` when absent from the body, and whose other optional fields are
null when absent. -/
theorem claim_C5_valid_origin_insert (env : Feedback.Env)
    (req : Feedback.FRequest) (b : Feedback.Body) (fid orig : String)
    (hm : req.httpMethod = "POST") (hb : req.body = some b)
    (hfid : b.formId = some fid)
    (hft : truthyOptStr b.formId = true)
    (hmt : truthyOptStr (b.message.map jsTrim) = true)
    (ho : req.origin = some orig)
    (hot : truthyOptStr req.origin = true)
    (hurl : env.formUrl fid = some orig)
    (hie : env.insertError = false)
    (hid : env.insertData ≠ some []) :
    (Feedback.handler env req).1 = Feedback.respSuccess ∧
      Feedback.insertedRows (Feedback.handler env req).2 =
        [Feedback.mkRow fid b] ∧
      (Feedback.mkRow fid b).form_id = fid ∧
      (b.operating_system = none →
        (Feedback.mkRow fid b).operating_system = "Unknown") ∧
      (b.screen_category = none →
        (Feedback.mkRow fid b).screen_category = "Unknown") ∧
      (b.image_url = none → (Feedback.mkRow fid b).image_url = none) ∧
      (b.image_name = none → (Feedback.mkRow fid b).image_name = none) ∧
      (b.image_size = none → (Feedback.mkRow fid b).image_size = none) ∧
      (b.user_id = none → (Feedback.mkRow fid b).user_id = none) ∧
      (b.user_email = none → (Feedback.mkRow fid b).user_email = none) ∧
      (b.user_name = none → (Feedback.mkRow fid b).user_name = none) := by
  simp only [hfid] at hft
  simp only [ho] at hot
  have hval : Feedback.validateFormId env fid orig =
      (true, [FEvent.formLookup fid]) := by
    simp [Feedback.validateFormId, hurl, isValidOrigin]
  refine ⟨?_, ?_, ?_⟩
  case _ =>
    rcases hd : env.insertData with _ | (_ | ⟨r, rs⟩)
    · simp [Feedback.handler, Feedback.handlerTry, Feedback.insertAndNotify,
        hm, hb, hfid, hft, hmt, ho, hot, hval, hie, hd]
    · exact absurd hd hid
    · simp [Feedback.handler, Feedback.handlerTry, Feedback.insertAndNotify,
        hm, hb, hfid, hft, hmt, ho, hot, hval, hie, hd]
  case _ =>
    rcases hd : env.insertData with _ | (_ | ⟨r, rs⟩)
    · simp [Feedback.handler, Feedback.handlerTry, Feedback.insertAndNotify,
        hm, hb, hfid, hft, hmt, ho, hot, hval, hie, hd,
        Feedback.insertedRows]
    · exact absurd hd hid
    · simp [Feedback.handler, Feedback.handlerTry, Feedback.insertAndNotify,
        hm, hb, hfid, hft, hmt, ho, hot, hval, hie, hd,
        Feedback.insertedRows]
  case _ =>
    refine ⟨rfl, ?_, ?_, ?_, ?_, ?_, ?_, ?_, ?_⟩ <;>
      intro h <;> simp [Feedback.mkRow, h, jsOrStr, jsNullableStr, jsNullableNat]

/-- C9: even when the insert reports no error, the notification dispatch is
invoked only when the insert call also returned row data: if the store
returns success with null data, no notification request appears in the trace
and the caller still receives 200 `\x7b"success":true\x7d`.  The origin may
be absent (trusted path) or valid. -/
theorem claim_C9_no_data_no_dispatch (env : Feedback.Env)
    (req : Feedback.FRequest) (b : Feedback.Body) (fid : String)
    (hm : req.httpMethod = "POST") (hb : req.body = some b)
    (hfid : b.formId = some fid)
    (hft : truthyOptStr b.formId = true)
    (hmt : truthyOptStr (b.message.map jsTrim) = true)
    (ho : truthyOptStr req.origin = false ∨
      ∃ orig, req.origin = some orig ∧ truthyOptStr req.origin = true ∧
        env.formUrl fid = some orig)
    (hie : env.insertError = false)
    (hid : env.insertData = none) :
    (Feedback.handler env req).1 = Feedback.respSuccess ∧
      ((Feedback.handler env req).2.filter Feedback.isDispatchRequest) = [] := by
  simp only [hfid] at hft
  rcases ho with ho | ⟨orig, ho, hot, hurl⟩
  · simp [Feedback.handler, Feedback.handlerTry, Feedback.insertAndNotify,
      hm, hb, hfid, hft, hmt, ho, hie, hid, Feedback.isDispatchRequest]
  · simp only [ho] at hot
    simp [Feedback.handler, Feedback.handlerTry, Feedback.insertAndNotify,
      Feedback.validateFormId, isValidOrigin,
      hm, hb, hfid, hft, hmt, ho, hot, hurl, hie, hid,
      Feedback.isDispatchRequest]

/-- C2: for every request that passes validation and whose insert succeeds
with row data, the response is 200 `\x7b"success":true\x7d` whatever the
outcome of the notification dispatch: `env.dispatchOk` is unconstrained, the
dispatch is issued and settles with that outcome, and the response is the
success response either way -- a dispatch failure is never surfaced to the
caller as an error. -/
theorem claim_C2_success_regardless_of_dispatch (env : Feedback.Env)
    (req : Feedback.FRequest) (b : Feedback.Body) (fid : String)
    (r : Feedback.InsertedRow) (rs : List Feedback.InsertedRow)
    (hm : req.httpMethod = "POST") (hb : req.body = some b)
    (hfid : b.formId = some fid)
    (hft : truthyOptStr b.formId = true)
    (hmt : truthyOptStr (b.message.map jsTrim) = true)
    (ho : truthyOptStr req.origin = false ∨
      ∃ orig, req.origin = some orig ∧ truthyOptStr req.origin = true ∧
        env.formUrl fid = some orig)
    (hie : env.insertError = false)
    (hid : env.insertData = some (r :: rs)) :
    (Feedback.handler env req).1 = Feedback.respSuccess ∧
      FEvent.dispatchSettled env.dispatchOk ∈ (Feedback.handler env req).2 := by
  simp only [hfid] at hft
  rcases ho with ho | ⟨orig, ho, hot, hurl⟩
  · simp [Feedback.handler, Feedback.handlerTry, Feedback.insertAndNotify,
      hm, hb, hfid, hft, hmt, ho, hie, hid]
  · simp only [ho] at hot
    simp [Feedback.handler, Feedback.handlerTry, Feedback.insertAndNotify,
      Feedback.validateFormId, isValidOrigin,
      hm, hb, hfid, hft, hmt, ho, hot, hurl, hie, hid]

/-- C8: for every dispatch where the form exists but the enabled-recipients
query yields no rows (null or empty data), the handler completes without
error -- 200 with the no-settings message -- and no email send is issued. -/
theorem claim_C8_no_recipients (env : SendNotification.NEnv)
    (req : SendNotification.NRequest) (p : SendNotification.NPayload)
    (fid url : String)
    (hm : req.httpMethod = "POST") (hb : req.body = some p)
    (hfid : p.formId = some fid) (hform : env.formUrl fid = some url)
    (hset : env.settingsData = none ∨ env.settingsData = some []) :
    (SendNotification.sendHandler env req).1 = SendNotification.respNoSettings ∧
      SendNotification.sentEmails (SendNotification.sendHandler env req).2 = [] := by
  rcases hset with h | h <;>
    simp [SendNotification.sendHandler, SendNotification.sendTry,
      SendNotification.lookupForm, SendNotification.sentEmails,
      hm, hb, hfid, hform, h]

/-- C3: for every dispatch with multiple enabled recipients where one
recipient's email send fails, every recipient (the failing one included)
still has its send issued -- the eager `settings.map` initiates all fetches
before `Promise.all` is awaited -- and the failure is not raised past the
dispatch handler: the `Promise.all` rejection escapes the `try` block
(`sendTry` yields `Except.error`) but the handler's catch converts it into
the returned 500 response rather than propagating it. -/
theorem claim_C3_fanout_partial_failure (env : SendNotification.NEnv)
    (req : SendNotification.NRequest) (p : SendNotification.NPayload)
    (fid url bad : String) (emails : List String)
    (hm : req.httpMethod = "POST") (hb : req.body = some p)
    (hfid : p.formId = some fid) (hform : env.formUrl fid = some url)
    (hset : env.settingsData = some emails) (_hlen : 1 < emails.length)
    (hmem : bad ∈ emails) (hfail : env.sendOk bad = false) :
    (∀ e ∈ emails,
      NEvent.emailSend e ∈ (SendNotification.sendHandler env req).2) ∧
      (SendNotification.sendTry env p).1 = Except.error () ∧
      (SendNotification.sendHandler env req).1 = SendNotification.respNFail := by
  have hne : emails ≠ [] := List.ne_nil_of_mem hmem
  have hall : emails.all env.sendOk = false := by
    rw [List.all_eq_false]
    exact ⟨bad, hmem, by simp [hfail]⟩
  refine ⟨?_, ?_, ?_⟩
  · intro e he
    simp [SendNotification.sendHandler, SendNotification.sendTry,
      SendNotification.lookupForm, hm, hb, hfid, hform, hset, hall]
    exact he
  · simp [SendNotification.sendTry, SendNotification.lookupForm,
      hfid, hform, hset, hall]
  · simp [SendNotification.sendHandler, SendNotification.sendTry,
      SendNotification.lookupForm, hm, hb, hfid, hform, hset, hall]

/-- The forms table used by the concrete runs below: form `f1` is registered
to `https://example.com`. -/
def witForms : String → Option String :=
  fun i => if i = "f1" then some "https://example.com" else none

/-- A well-formed submission body for form `f1`. -/
def witBody : Feedback.Body :=
  ⟨some "f1", some "Broken button", none, none, none, none, none, none, none, none⟩

/-- Concrete run for claim C1: valid origin, successful insert returning one
row, successful dispatch. -/
def C1env : Feedback.Env :=
  ⟨witForms, false, some [⟨"2024-01-01T00:00:00Z"⟩], true⟩

def C1req : Feedback.FRequest :=
  ⟨"POST", some "https://example.com", some witBody⟩

/-- C1, evaluated on the code: the claim says the 200 response is returned to
the caller before the detached notification dispatch completes and that the
dispatch never delays the response.  The source instead awaits the
notification fetch chain (`await fetch(...)...` on line 141) before
`return response` on line 177 -- despite its own comments on lines 110 and
119 announcing an immediate response and a fire-and-forget notification.  On
this fully valid run the event trace therefore contains the settlement of the
dispatch strictly before the response is returned to the caller. -/
theorem claim_C1_response_after_dispatch :
    Feedback.handler C1env C1req =
      (Feedback.respSuccess,
        [FEvent.formLookup "f1",
         FEvent.insert (Feedback.mkRow "f1" witBody),
         FEvent.dispatchRequest (Feedback.mkPayload witBody "2024-01-01T00:00:00Z"),
         FEvent.dispatchSettled true,
         FEvent.respond Feedback.respSuccess]) ∧
      List.indexOf (FEvent.dispatchSettled true) (Feedback.handler C1env C1req).2 <
        List.indexOf (FEvent.respond Feedback.respSuccess)
          (Feedback.handler C1env C1req).2 := by
  constructor <;> decide

/-- Witness for C6: a POST with a whitespace-only message. -/
def C6req : Feedback.FRequest :=
  ⟨"POST", none,
    some ⟨some "f1", some "  ", none, none, none, none, none, none, none, none⟩⟩

def C6env : Feedback.Env := ⟨witForms, false, none, true⟩

theorem claim_C6_bad_request_witness :
    (Feedback.handler C6env C6req).1 = Feedback.respInvalid ∧
      ((Feedback.handler C6env C6req).2.filter Feedback.isStoreEvent) = [] :=
  claim_C6_bad_request C6env C6req
    ⟨some "f1", some "  ", none, none, none, none, none, none, none, none⟩
    rfl rfl (Or.inr (Or.inr ⟨"  ", rfl, by decide⟩))

theorem claim_C10_unparseable_body_witness :
    (Feedback.handler C6env ⟨"POST", none, none⟩).1 = Feedback.respInternal ∧
      Feedback.insertedRows (Feedback.handler C6env ⟨"POST", none, none⟩).2 = [] :=
  claim_C10_unparseable_body C6env ⟨"POST", none, none⟩ rfl rfl

/-- Witness runs for the successful-ingestion claims. -/
def C7env : Feedback.Env := ⟨witForms, false, some [⟨"t0"⟩], true⟩

def C7req : Feedback.FRequest := ⟨"POST", none, some witBody⟩

theorem claim_C7_no_origin_trusted_path_witness :
    ((Feedback.handler C7env C7req).2.filter Feedback.isFormLookup) = [] ∧
      Feedback.insertedRows (Feedback.handler C7env C7req).2 =
        [Feedback.mkRow "f1" witBody] :=
  claim_C7_no_origin_trusted_path C7env C7req witBody "f1"
    rfl rfl (by decide) rfl (by decide) (by decide)

def C5req : Feedback.FRequest :=
  ⟨"POST", some "https://example.com", some witBody⟩

theorem claim_C5_valid_origin_insert_witness :
    (Feedback.handler C7env C5req).1 = Feedback.respSuccess ∧
      Feedback.insertedRows (Feedback.handler C7env C5req).2 =
        [Feedback.mkRow "f1" witBody] ∧
      (Feedback.mkRow "f1" witBody).form_id = "f1" ∧
      (witBody.operating_system = none →
        (Feedback.mkRow "f1" witBody).operating_system = "Unknown") ∧
      (witBody.screen_category = none →
        (Feedback.mkRow "f1" witBody).screen_category = "Unknown") ∧
      (witBody.image_url = none → (Feedback.mkRow "f1" witBody).image_url = none) ∧
      (witBody.image_name = none → (Feedback.mkRow "f1" witBody).image_name = none) ∧
      (witBody.image_size = none → (Feedback.mkRow "f1" witBody).image_size = none) ∧
      (witBody.user_id = none → (Feedback.mkRow "f1" witBody).user_id = none) ∧
      (witBody.user_email = none → (Feedback.mkRow "f1" witBody).user_email = none) ∧
      (witBody.user_name = none → (Feedback.mkRow "f1" witBody).user_name = none) :=
  claim_C5_valid_origin_insert C7env C5req witBody "f1" "https://example.com"
    rfl rfl rfl (by decide) (by decide) rfl (by decide) (by decide) rfl (by decide)

def C4req : Feedback.FRequest :=
  ⟨"POST", some "https://evil.com", some witBody⟩

theorem claim_C4_origin_rejected_witness :
    (Feedback.handler C7env C4req).1 = Feedback.respForbidden ∧
      Feedback.insertedRows (Feedback.handler C7env C4req).2 = [] :=
  claim_C4_origin_rejected C7env C4req witBody "f1" "https://evil.com"
    rfl rfl rfl (by decide) (by decide) rfl (by decide)
    (Or.inr ⟨"https://example.com", by decide⟩)

def C9env : Feedback.Env := ⟨witForms, false, none, true⟩

theorem claim_C9_no_data_no_dispatch_witness :
    (Feedback.handler C9env C7req).1 = Feedback.respSuccess ∧
      ((Feedback.handler C9env C7req).2.filter Feedback.isDispatchRequest) = [] :=
  claim_C9_no_data_no_dispatch C9env C7req witBody "f1"
    rfl rfl rfl (by decide) (by decide) (Or.inl rfl) rfl rfl

/-- Witness run for C2: the dispatch fails (`dispatchOk := false`) and the
caller still receives the 200 success response. -/
def C2env : Feedback.Env := ⟨witForms, false, some [⟨"t0"⟩], false⟩

theorem claim_C2_success_regardless_of_dispatch_witness :
    (Feedback.handler C2env C5req).1 = Feedback.respSuccess ∧
      FEvent.dispatchSettled C2env.dispatchOk ∈ (Feedback.handler C2env C5req).2 :=
  claim_C2_success_regardless_of_dispatch C2env C5req witBody "f1" ⟨"t0"⟩ []
    rfl rfl rfl (by decide) (by decide)
    (Or.inr ⟨"https://example.com", rfl, by decide, by decide⟩) rfl rfl

/-- Witness runs for the dispatch claims. -/
def C8env : SendNotification.NEnv := ⟨witForms, some [], fun _ => true⟩

def C8req : SendNotification.NRequest :=
  ⟨"POST", some ⟨some "f1", some "Broken button", none, none⟩⟩

theorem claim_C8_no_recipients_witness :
    (SendNotification.sendHandler C8env C8req).1 = SendNotification.respNoSettings ∧
      SendNotification.sentEmails (SendNotification.sendHandler C8env C8req).2 = [] :=
  claim_C8_no_recipients C8env C8req ⟨some "f1", some "Broken button", none, none⟩
    "f1" "https://example.com" rfl rfl rfl (by decide) (Or.inr rfl)

/-- C3 witness: three enabled recipients, the send to the second fails. -/
def C3env : SendNotification.NEnv :=
  ⟨witForms, some ["a@x.com", "b@x.com", "c@x.com"], fun e => !(e == "b@x.com")⟩

theorem claim_C3_fanout_partial_failure_witness :
    (∀ e ∈ ["a@x.com", "b@x.com", "c@x.com"],
      NEvent.emailSend e ∈ (SendNotification.sendHandler C3env C8req).2) ∧
      (SendNotification.sendTry C3env
        ⟨some "f1", some "Broken button", none, none⟩).1 = Except.error () ∧
      (SendNotification.sendHandler C3env C8req).1 = SendNotification.respNFail :=
  claim_C3_fanout_partial_failure C3env C8req
    ⟨some "f1", some "Broken button", none, none⟩
    "f1" "https://example.com" "b@x.com" ["a@x.com", "b@x.com", "c@x.com"]
    rfl rfl rfl (by decide) rfl (by decide) (by decide) (by decide)
